import Mathlib

/-!
Verification of the context-vault browser extension client layer.

Shallow embedding of the core source files:
- `src/background/api-client.ts` (API gateway client: settings check,
  rate-limit pre-flight, timeout/retry/backoff loop, error classification)
- `src/background/oauth.ts` (tab-driven OAuth flow coordinator)
- `src/background/index.ts` (origin permission negotiator)

Modelling conventions:
- JavaScript numbers that hold HTTP statuses and epoch times are modelled
  as `Int` (all values in play are integral; the one fractional comparison
  `Date.now() / 1000 < resetAt` is modelled exactly as
  `nowMs < resetAt * 1000`, which is equivalent over the rationals for
  integral `resetAt`).
- Host-environment builtins (fetch, the WHATWG URL parser, chrome.tabs,
  chrome.permissions, Date/toLocaleTimeString) are inputs of the model:
  each network attempt is an oracle value, a parsed URL is a record of the
  components the code reads, the permission prompts are boolean-valued
  environment functions, and the time formatter is a function parameter.
- Thrown JavaScript errors are modelled by the inductive `JSErr`; the
  `DOMException` named AbortError that an aborted fetch rejects with is a
  dedicated constructor (in Chrome it is an `instanceof Error`).
-/

/- ───────────────────────── shared string helpers ───────────────────── -/

/-- Substring test on character lists (used to model regex `test`). -/
def listContainsSub (pat : List Char) : List Char → Bool
  | [] => pat.isEmpty
  | x :: xs => pat.isPrefixOf (x :: xs) || listContainsSub pat xs

def lowerChars (s : String) : List Char := s.toList.map Char.toLower

/-- Case-insensitive substring test: models `/pat/i.test(s)` for the
literal (alternation-free) patterns used in the source. -/
def strContainsCI (s pat : String) : Bool :=
  listContainsSub (lowerChars pat) (lowerChars s)

/-- Models `serverUrl.replace(/\/$/, "")`: strips one trailing slash. -/
def stripTrailingSlash (s : String) : String :=
  if s.endsWith "/" then s.dropRight 1 else s

/- ───────────── api-client.ts: data model and error taxonomy ─────────── -/

/-- The `ErrorCode` enum from `src/shared/types.ts`. -/
inductive ErrorCode
  | NOT_CONFIGURED
  | UNAUTHORIZED
  | RATE_LIMITED
  | SERVER_ERROR
  | NETWORK_ERROR
  | TIMEOUT
deriving DecidableEq

/-- The `APIError` class of `api-client.ts`: message, HTTP status
(0 when no response was received) and optional classified code. -/
structure APIError where
  message : String
  status : Int
  code : Option ErrorCode
deriving DecidableEq

/-- A thrown JavaScript error value, as the client code distinguishes them:
a typed `APIError`, the AbortError `DOMException` of an aborted fetch, a
`TypeError` (what fetch throws on network-level failure), or a plain
`Error`. -/
inductive JSErr
  | api (e : APIError)
  | abortDOMException (message : String)
  | typeErr (message : String)
  | plain (message : String)
deriving DecidableEq

def isAPIErr : JSErr → Bool
  | .api _ => true
  | _ => false

def isTypeErr : JSErr → Bool
  | .typeErr _ => true
  | _ => false

def jsErrMessage : JSErr → String
  | .api e => e.message
  | .abortDOMException m => m
  | .typeErr m => m
  | .plain m => m

/-- The classified code carried by a thrown error (absent for non-`APIError`
values, mirroring the optional `code` property). -/
def jsErrCode : JSErr → Option ErrorCode
  | .api e => e.code
  | _ => none

/-- `RateLimitState` of `api-client.ts`: `remaining` count and `resetAt`
in epoch seconds. -/
structure RateLimitState where
  remaining : Int
  resetAt : Int
deriving DecidableEq

/-- `ExtensionSettings` as resolved by `getSettings()` (missing storage
keys collapse to `""` via `|| ""`). -/
structure Settings where
  serverUrl : String
  apiKey : String
  encryptionSecret : String
deriving DecidableEq

/- ─────────────── api-client.ts: constants and helpers ──────────────── -/

def RETRY_BACKOFF_MS : List Nat := [1000, 3000]

def FETCH_TIMEOUT_MS : Nat := 15000

/-- Membership test of the source `NO_RETRY_STATUSES = new Set([401, 429])`. -/
def noRetryStatus (s : Int) : Bool := s == 401 || s == 429

/-- `statusToErrorCode` of `api-client.ts`. -/
def statusToErrorCode (status : Int) : Option ErrorCode :=
  if status == 401 then some .UNAUTHORIZED
  else if status == 429 then some .RATE_LIMITED
  else if 500 ≤ status then some .SERVER_ERROR
  else none

/-- Message of the `APIError` built for a non-2xx response:
`body.error || "API error: status"` (the body field, when parsing fails,
already holds `res.statusText`; an empty string is falsy). -/
def httpErrMessage (status : Int) (bodyError : Option String) : String :=
  match bodyError with
  | some m => if m = "" then "API error: " ++ toString status else m
  | none => "API error: " ++ toString status

/-- Message Chrome gives the AbortError `DOMException` when a fetch is
aborted by `controller.abort()`. -/
def ABORT_MSG : String := "The user aborted a request."

def timedOutMsg : String :=
  "Request timed out after " ++ toString FETCH_TIMEOUT_MS ++ "ms"

/-- `friendlyError` of `api-client.ts`: passes `APIError` through, rewrites
network-level failures to `NETWORK_ERROR`, messages containing "timed out"
to `TIMEOUT` and "not configured" to `NOT_CONFIGURED`; anything else is
returned unchanged. -/
def friendlyError (err : JSErr) : JSErr :=
  if isAPIErr err then err
  else
    let msg := jsErrMessage err
    let isNetworkError :=
      (isTypeErr err && (strContainsCI msg "fetch" || strContainsCI msg "network"))
      || msg == "Failed to fetch"
      || strContainsCI msg "ECONNREFUSED"
      || strContainsCI msg "ECONNRESET"
      || strContainsCI msg "ENOTFOUND"
    if isNetworkError then
      .api ⟨"Could not reach the server. Check your connection and server URL.",
            0, some .NETWORK_ERROR⟩
    else if strContainsCI msg "timed out" then
      .api ⟨msg, 0, some .TIMEOUT⟩
    else if strContainsCI msg "not configured" then
      .api ⟨msg, 0, some .NOT_CONFIGURED⟩
    else err

/-- `updateRateLimitCache` of `api-client.ts`, over the already-parsed
numeric header values (the `Number()` conversion is a host builtin; a
present-but-non-numeric header is not modelled). With no cached state and
no remaining header the computed remaining is `Infinity`, which fails the
`Number.isFinite` check, so the cache is left unchanged. The fire-and-forget
`chrome.storage.local.set` is an external effect outside the model. -/
def updateRateLimitCache (cur : Option RateLimitState)
    (remaining reset : Option Int) : Option RateLimitState :=
  if remaining = none ∧ reset = none then cur
  else
    match remaining, cur with
    | some r, some c => some ⟨r, reset.getD c.resetAt⟩
    | some r, none => some ⟨r, reset.getD 0⟩
    | none, some c => some ⟨c.remaining, reset.getD c.resetAt⟩
    | none, none => cur

/- ─────────────── api-client.ts: the apiFetch retry loop ─────────────── -/

/-- Outcome of one network attempt, as decided by the environment:
a 2xx response (with optional parsed rate-limit headers), a non-2xx
response (with the optional `error` field of its JSON body), a 15s
timeout (the fetch rejects with an AbortError `DOMException`), or a
network-level failure (the fetch rejects with the given error, in the
browser a `TypeError`). -/
inductive FetchOutcome
  | success (rlRemaining rlReset : Option Int)
  | httpError (status : Int) (bodyError : Option String)
  | timeout
  | netFailure (e : JSErr)
deriving DecidableEq

/-- Result of one `apiFetch` call: result of the returned promise (the
parsed JSON payload is opaque and not modelled), the number of network
attempts issued, the backoff delays awaited (ms, in order), and the
rate-limit cache after the call. -/
inductive CallOutcome
  | ok
  | err (e : JSErr)
deriving DecidableEq

structure CallResult where
  attempts : Nat
  delays : List Nat
  result : CallOutcome
  finalRateLimit : Option RateLimitState
deriving DecidableEq

/-- Does an error rethrow out of the catch block without retry
(`err instanceof APIError && NO_RETRY_STATUSES.has(err.status)`)? -/
def apiNoRetry : JSErr → Bool
  | .api e => noRetryStatus e.status
  | _ => false

/-- The `for (attempt...)` loop of `apiFetch`, one recursion step per
iteration. The iteration count is tied to `RETRY_BACKOFF_MS` exactly as in
the source (`attempt <= RETRY_BACKOFF_MS.length`, delay
`RETRY_BACKOFF_MS[attempt]` while `attempt < length`), so the loop is
modelled by structural recursion on the list of backoff delays still
available; the empty list is the final iteration.

`lastError` needs no explicit state: on every failure of the final
iteration the source assigns `lastError` just before the loop exits and
then throws `friendlyError(lastError)`, so the surfaced error is a
function of the final attempt alone. In particular, when the final attempt
times out, the source first sets `lastError` to an Error with message
"Request timed out after 15000ms" but then falls through to
`lastError = err instanceof Error ? err : new Error(String(err))`, which
overwrites it with the AbortError `DOMException` itself — so the error
thrown after an exhausted-timeout call is the raw abort exception. -/
def runAttempts (oracle : Nat → FetchOutcome) (rl : Option RateLimitState) :
    Nat → List Nat → Nat → List Nat → CallResult
  | attempt, [], att, del =>
    match oracle attempt with
    | .success rem rst => ⟨att + 1, del, .ok, updateRateLimitCache rl rem rst⟩
    | .httpError s body =>
      let e : JSErr := .api ⟨httpErrMessage s body, s, statusToErrorCode s⟩
      if noRetryStatus s then ⟨att + 1, del, .err e, rl⟩
      else ⟨att + 1, del, .err (friendlyError e), rl⟩
    | .timeout =>
      ⟨att + 1, del, .err (friendlyError (.abortDOMException ABORT_MSG)), rl⟩
    | .netFailure e =>
      if apiNoRetry e then ⟨att + 1, del, .err e, rl⟩
      else ⟨att + 1, del, .err (friendlyError e), rl⟩
  | attempt, b :: rest, att, del =>
    match oracle attempt with
    | .success rem rst => ⟨att + 1, del, .ok, updateRateLimitCache rl rem rst⟩
    | .httpError s body =>
      let e : JSErr := .api ⟨httpErrMessage s body, s, statusToErrorCode s⟩
      if noRetryStatus s then ⟨att + 1, del, .err e, rl⟩
      else runAttempts oracle rl (attempt + 1) rest (att + 1) (del ++ [b])
    | .timeout => runAttempts oracle rl (attempt + 1) rest (att + 1) (del ++ [b])
    | .netFailure e =>
      if apiNoRetry e then ⟨att + 1, del, .err e, rl⟩
      else runAttempts oracle rl (attempt + 1) rest (att + 1) (del ++ [b])

/-- The rate-limit pre-flight condition of `apiFetch`:
`cachedRateLimit !== null && cachedRateLimit.remaining <= 0 &&
Date.now() / 1000 < cachedRateLimit.resetAt`. -/
def preflightBlocked (rl : Option RateLimitState) (nowMs : Int) : Bool :=
  match rl with
  | some r => decide (r.remaining ≤ 0 ∧ nowMs < r.resetAt * 1000)
  | none => false

def NOT_CONFIGURED_SERVER_MSG : String :=
  "Not configured — set server URL in extension settings"

def NOT_CONFIGURED_KEY_MSG : String :=
  "Not configured — set API key in extension settings"

/-- `apiFetch` of `api-client.ts`. `st` are the resolved settings, `rl` the
cached `RateLimitState`, `nowMs` the value of `Date.now()`, `fmtTime`
models `resetAt => new Date(resetAt * 1000).toLocaleTimeString()`, and
`oracle` gives the outcome of each network attempt. The request path
does not influence control flow (the URL is `stripTrailingSlash serverUrl
++ path`); it is kept so the exported operations below can be stated. -/
def apiFetch (st : Settings) (rl : Option RateLimitState) (nowMs : Int)
    (fmtTime : Int → String) (oracle : Nat → FetchOutcome) (_path : String) :
    CallResult :=
  if st.serverUrl = "" then
    ⟨0, [], .err (.api ⟨NOT_CONFIGURED_SERVER_MSG, 0, some .NOT_CONFIGURED⟩), rl⟩
  else if st.apiKey = "" then
    ⟨0, [], .err (.api ⟨NOT_CONFIGURED_KEY_MSG, 0, some .NOT_CONFIGURED⟩), rl⟩
  else
    match rl with
    | some r =>
      if r.remaining ≤ 0 ∧ nowMs < r.resetAt * 1000 then
        ⟨0, [],
         .err (.api ⟨"Rate limit exhausted. Resets at " ++ fmtTime r.resetAt ++ ".",
                     429, some .RATE_LIMITED⟩),
         some r⟩
      else runAttempts oracle (some r) 0 RETRY_BACKOFF_MS 0 []
    | none => runAttempts oracle none 0 RETRY_BACKOFF_MS 0 []

/-- `searchVault` — `POST /api/vault/search` through `apiFetch`. -/
def searchVault (st : Settings) (rl : Option RateLimitState) (nowMs : Int)
    (fmtTime : Int → String) (oracle : Nat → FetchOutcome) : CallResult :=
  apiFetch st rl nowMs fmtTime oracle "/api/vault/search"

/-- `createEntry` — `POST /api/vault/entries` through `apiFetch`. -/
def createEntry (st : Settings) (rl : Option RateLimitState) (nowMs : Int)
    (fmtTime : Int → String) (oracle : Nat → FetchOutcome) : CallResult :=
  apiFetch st rl nowMs fmtTime oracle "/api/vault/entries"

/-- `ingestUrl` — `POST /api/vault/ingest` through `apiFetch`. -/
def ingestUrl (st : Settings) (rl : Option RateLimitState) (nowMs : Int)
    (fmtTime : Int → String) (oracle : Nat → FetchOutcome) : CallResult :=
  apiFetch st rl nowMs fmtTime oracle "/api/vault/ingest"

/-- `getVaultStatus` — `GET /api/vault/status` through `apiFetch`. -/
def getVaultStatus (st : Settings) (rl : Option RateLimitState) (nowMs : Int)
    (fmtTime : Int → String) (oracle : Nat → FetchOutcome) : CallResult :=
  apiFetch st rl nowMs fmtTime oracle "/api/vault/status"

/- ──────────────── api-client.ts: getUserProfile ─────────────────────── -/

/-- Opaque profile payload returned by `GET /api/auth/me`; the client
passes it through without interpreting its fields. -/
structure UserProfile where
  raw : String
deriving DecidableEq

/-- How the single fetch of `getUserProfile` plays out: a 2xx response
whose body parses, a 2xx response whose `res.json()` rejects, a non-2xx
response, or a rejected fetch (network failure or 15s abort). -/
inductive ProfileOutcome
  | okJson (p : UserProfile)
  | okBadJson (e : JSErr)
  | httpErr (status : Int)
  | fetchThrow (e : JSErr)
deriving DecidableEq

/-- How the `try` block of `getUserProfile` exits: a plain return value,
an error thrown inside the block (these are what the `catch` intercepts:
rejections of awaited promises and synchronous throws), or — because
`return res.json()` returns the promise without `await` — a return whose
adopted promise later rejects. An adopted rejection leaves the
`try`/`catch` entirely. -/
inductive ProfileTryResult
  | value (p : Option UserProfile)
  | thrown (e : JSErr)
  | adoptedRejection (e : JSErr)
deriving DecidableEq

/-- The `try` body of `getUserProfile`: `await fetch` (a rejection here is
thrown into the block), then `if (!res.ok) return null`, then
`return res.json()` — the un-awaited promise is adopted as the return
value, so its rejection is not a throw inside the block. -/
def getUserProfileTry : ProfileOutcome → ProfileTryResult
  | .okJson p => .value (some p)
  | .okBadJson e => .adoptedRejection e
  | .httpErr _ => .value none
  | .fetchThrow e => .thrown e

/-- What the caller of `getUserProfile` observes: a fulfilled value or a
rejection of the call itself. -/
inductive ProfileResult
  | resolved (p : Option UserProfile)
  | rejected (e : JSErr)
deriving DecidableEq

/-- `getUserProfile` of `api-client.ts`: the body is wrapped in
`try ... catch { return null; }`, so errors thrown inside the block
resolve to `null` — but a rejection adopted via the un-awaited
`return res.json()` bypasses the `catch` and rejects the call. -/
def getUserProfile (o : ProfileOutcome) : ProfileResult :=
  match getUserProfileTry o with
  | .value v => .resolved v
  | .thrown _ => .resolved none
  | .adoptedRejection e => .rejected e

/- ───────────────────── oauth.ts: data model ─────────────────────────── -/

/-- `OAuthResult` of `oauth.ts`. -/
structure OAuthResult where
  apiKey : String
  encryptionSecret : Option String
deriving DecidableEq

/-- The module-level mutable state of `oauth.ts`: the four nullable
references (modelled as presence flags where only presence matters), plus
the number of `chrome.tabs.onRemoved` listeners currently registered by
this module (each `startGoogleOAuth` adds one; a listener only ever
removes itself). -/
structure OAuthState where
  pendingTabId : Option Nat
  pendingResolve : Bool
  pendingReject : Bool
  pendingTimeout : Bool
  removalListeners : Nat
deriving DecidableEq

/-- Externally visible actions of the coordinator, in program order:
tab creation, tab removal, and settlement of the in-flight promise. -/
inductive OAuthEffect
  | createTab (url : String)
  | removeTab (tabId : Nat)
  | resolved (r : OAuthResult)
  | rejected (message : String)
deriving DecidableEq

def OAUTH_START_URL : String := "https://api.context-vault.com/api/auth/google"
def CALLBACK_HOST : String := "app.context-vault.com"
def CALLBACK_PATH : String := "/auth/callback"
def OAUTH_TIMEOUT_MS : Nat := 5 * 60 * 1000

/-- `cleanup()` of `oauth.ts`: clears the deadline timer and nulls the
pending references. It does not touch the `onRemoved` listener. -/
def cleanup (st : OAuthState) : OAuthState :=
  { st with
    pendingTimeout := false
    pendingTabId := none
    pendingResolve := false
    pendingReject := false }

/-- `reject(err)` of `oauth.ts`: snapshot the reject continuation and the
tab id, run `cleanup`, close the tab if one is tracked, then invoke the
continuation. -/
def rejectRun (st : OAuthState) (message : String) :
    OAuthState × List OAuthEffect :=
  let rej := st.pendingReject
  let tabId := st.pendingTabId
  let st1 := cleanup st
  let removeEff : List OAuthEffect :=
    match tabId with
    | some t => [.removeTab t]
    | none => []
  let rejectEff : List OAuthEffect :=
    if rej then [.rejected message] else []
  (st1, removeEff ++ rejectEff)

/-- Firing of the 5-minute deadline armed by `startGoogleOAuth`:
`reject(new Error("Sign-in timed out. Please try again."))`. -/
def fireDeadline (st : OAuthState) : OAuthState × List OAuthEffect :=
  rejectRun st "Sign-in timed out. Please try again."

/- ─────────────── oauth.ts: tab-update callback handling ────────────── -/

/-- The components of a parsed URL that `handleOAuthTabUpdate` reads.
The WHATWG `new URL(...)` parse is a host builtin; the model receives its
result (`host` includes an explicit port, `hash` includes the leading
`#`). -/
structure URLParts where
  host : String
  pathname : String
  hash : String
deriving DecidableEq

/-- Models `hash.slice(1)`: drop the first character. -/
def hashSlice1 (hash : String) : String := String.mk (hash.toList.drop 1)

/-- Split a character list on a separator character. -/
def splitOnChar (c : Char) : List Char → List (List Char)
  | [] => [[]]
  | x :: xs =>
    match splitOnChar c xs with
    | [] => [[x]]
    | h :: t => if x == c then [] :: h :: t else (x :: h) :: t

/-- Split a parameter at its first `=`; no `=` means an absent value. -/
def splitFirstEq : List Char → List Char × Option (List Char)
  | [] => ([], none)
  | x :: xs =>
    if x == '=' then ([], some xs)
    else
      let r := splitFirstEq xs
      (x :: r.1, r.2)

/-- Models `new URLSearchParams(s)`: split on `&`, drop empty runs, split
each pair at the first `=` (a key without `=` gets value `""`). The
percent- and plus-decoding of the builtin is not modelled; the claims do
not involve encoded values. -/
def parseSearchParams (s : String) : List (String × String) :=
  ((splitOnChar '&' s.toList).filter (fun p => !p.isEmpty)).map
    (fun p =>
      let kv := splitFirstEq p
      (String.mk kv.1, String.mk (kv.2.getD [])))

/-- `URLSearchParams.get`: value of the first pair with the given key. -/
def searchParamsGet (s key : String) : Option String :=
  ((parseSearchParams s).find? (fun kv => kv.1 == key)).map (fun kv => kv.2)

/-- The credential the callback handler resolves with: the fragment
parameter `token`, except that a missing or empty token (both falsy)
resolves with `""`. -/
def fragmentToken (hash : String) : String :=
  match searchParamsGet (hashSlice1 hash) "token" with
  | none => ""
  | some tok => if tok = "" then "" else tok

/-- `handleOAuthTabUpdate` of `oauth.ts`. `changeUrl` is
`changeInfo.url` (`none` when the update carries no URL) combined with the
result of the builtin URL parse (`some none` when `new URL` throws). -/
def handleOAuthTabUpdate (st : OAuthState) (tabId : Nat)
    (changeUrl : Option (Option URLParts)) : OAuthState × List OAuthEffect :=
  match st.pendingTabId with
  | none => (st, [])
  | some pt =>
    if tabId ≠ pt then (st, [])
    else
      match changeUrl with
      | none => (st, [])
      | some none => (st, [])
      | some (some parsed) =>
        if parsed.host ≠ CALLBACK_HOST ∨ parsed.pathname ≠ CALLBACK_PATH then
          (st, [])
        else
          let token := searchParamsGet (hashSlice1 parsed.hash) "token"
          let encryptionSecret :=
            searchParamsGet (hashSlice1 parsed.hash) "encryption_secret"
          let res := st.pendingResolve
          let tabToClose := pt
          let st1 := cleanup st
          let resolveEff : List OAuthEffect :=
            if res then
              match token with
              | none => [.resolved ⟨"", encryptionSecret⟩]
              | some tok =>
                if tok = "" then [.resolved ⟨"", encryptionSecret⟩]
                else [.resolved ⟨tok, encryptionSecret⟩]
            else []
          (st1, .removeTab tabToClose :: resolveEff)

/- ─────────────── oauth.ts: startGoogleOAuth and onRemoved ──────────── -/

/-- Outcome of `chrome.tabs.create`: a tab id, or a failure
(`chrome.runtime.lastError` set or no `tab.id`). -/
inductive TabCreateOutcome
  | created (tabId : Nat)
  | failed
deriving DecidableEq

/-- Result of a `startGoogleOAuth` call: the state after the call (with
the tab-creation callback already run), the effects, and the message of
the synchronous throw when a flow is already in flight (`none` when the
call is accepted). -/
structure StartResult where
  state : OAuthState
  effects : List OAuthEffect
  thrown : Option String
deriving DecidableEq

/-- `startGoogleOAuth` of `oauth.ts`: throws at once if `pendingTabId` is
set; otherwise stores the resolve/reject continuations, arms the deadline
timer, and creates the auth tab. On creation failure the callback calls
`reject(new Error("Failed to open sign-in tab."))`; on success it records
the tab id and registers a `tabs.onRemoved` listener. -/
def startGoogleOAuth (st : OAuthState) (o : TabCreateOutcome) : StartResult :=
  if st.pendingTabId ≠ none then
    ⟨st, [],
     some "Sign-in already in progress. Please complete or close the existing sign-in tab."⟩
  else
    let st1 :=
      { st with pendingResolve := true, pendingReject := true, pendingTimeout := true }
    match o with
    | .failed =>
      let r := rejectRun st1 "Failed to open sign-in tab."
      ⟨r.1, .createTab OAUTH_START_URL :: r.2, none⟩
    | .created tid =>
      ⟨{ st1 with
          pendingTabId := some tid
          removalListeners := st1.removalListeners + 1 },
       [.createTab OAUTH_START_URL], none⟩

/-- The `onRemoved` listener registered by `startGoogleOAuth`: ignores
removals of other tabs (and, since `pendingTabId` is a number or `null`,
every removal once the flow is torn down — in which case it stays
registered); on removal of the tracked tab it deregisters itself and, if a
reject continuation is still pending, cleans up and rejects with
"Sign-in cancelled.". -/
def onRemovedHandler (st : OAuthState) (removedTabId : Nat) :
    OAuthState × List OAuthEffect :=
  match st.pendingTabId with
  | none => (st, [])
  | some pt =>
    if removedTabId ≠ pt then (st, [])
    else
      let st1 := { st with removalListeners := st.removalListeners - 1 }
      if st1.pendingReject then
        (cleanup st1, [.rejected "Sign-in cancelled."])
      else (st1, [])

/- ─────────── index.ts: origin permission negotiator ────────────────── -/

/-- The components of a parsed server URL that
`originPatternFromServerUrl` reads (again the builtin `new URL` parse:
`protocol` keeps its trailing colon, `host` includes an explicit port). -/
structure ServerURLParts where
  protocol : String
  host : String
deriving DecidableEq

def INVALID_URL_MSG : String :=
  "Invalid server URL. Use a full URL like https://api.context-vault.com"

def BAD_SCHEME_MSG : String := "Server URL must use http:// or https://"

/-- `originPatternFromServerUrl` of `index.ts`, over the parse result of
`new URL(serverUrl.trim())` (`none` when the parse throws). -/
def originPatternFromServerUrl (parsed : Option ServerURLParts) :
    Except String String :=
  match parsed with
  | none => .error INVALID_URL_MSG
  | some p =>
    if p.protocol ≠ "https:" ∧ p.protocol ≠ "http:" then .error BAD_SCHEME_MSG
    else .ok (p.protocol ++ "//" ++ p.host ++ "/*")

/-- The browser permission environment: results of
`chrome.permissions.contains` and `chrome.permissions.request`. -/
structure PermEnv where
  containsGranted : String → Bool
  requestGranted : String → Bool

/-- The permission-API calls a run of `ensureServerPermission` issued, in
order, for each of the two endpoints. -/
structure PermTrace where
  containsCalls : List String
  requestCalls : List String
deriving DecidableEq

/-- `ensureServerPermission` of `index.ts`: derive the origin pattern
(failing first on an unparsable URL or a non-http(s) scheme, before any
permission API call), return it if already granted, otherwise prompt; a
declined prompt fails with an error naming the exact pattern. -/
def ensureServerPermission (env : PermEnv) (parsed : Option ServerURLParts) :
    Except String String × PermTrace :=
  match originPatternFromServerUrl parsed with
  | .error e => (.error e, ⟨[], []⟩)
  | .ok origin =>
    if env.containsGranted origin then (.ok origin, ⟨[origin], []⟩)
    else if env.requestGranted origin then (.ok origin, ⟨[origin], [origin]⟩)
    else
      (.error ("Permission denied for " ++ origin ++
               ". Allow host access to connect this server."),
       ⟨[origin], [origin]⟩)

/- ─────────────────────── helper lemmas ─────────────────────────────── -/

theorem friendlyError_api (e : APIError) : friendlyError (.api e) = .api e := by
  simp [friendlyError, isAPIErr]

theorem friendlyError_abort :
    friendlyError (.abortDOMException ABORT_MSG) = .abortDOMException ABORT_MSG := by
  decide

/-- Once the configuration and pre-flight checks pass, `apiFetch` is the
retry loop started at attempt 0 with the full backoff schedule. -/
theorem apiFetch_run (st : Settings) (rl : Option RateLimitState) (nowMs : Int)
    (fmtTime : Int → String) (oracle : Nat → FetchOutcome) (path : String)
    (hs : st.serverUrl ≠ "") (hk : st.apiKey ≠ "")
    (hrl : preflightBlocked rl nowMs = false) :
    apiFetch st rl nowMs fmtTime oracle path
      = runAttempts oracle rl 0 RETRY_BACKOFF_MS 0 [] := by
  cases rl with
  | none => simp [apiFetch, hs, hk]
  | some r =>
    have h : ¬(r.remaining ≤ 0 ∧ nowMs < r.resetAt * 1000) := by
      simpa [preflightBlocked] using hrl
    simp [apiFetch, hs, hk, h]

/-- The retry loop always issues at least one network attempt beyond the
count accumulated so far. -/
theorem runAttempts_attempts_ge (oracle : Nat → FetchOutcome)
    (rl : Option RateLimitState) :
    ∀ (backoffs : List Nat) (attempt att : Nat) (del : List Nat),
      att + 1 ≤ (runAttempts oracle rl attempt backoffs att del).attempts := by
  intro backoffs
  induction backoffs with
  | nil =>
    intro attempt att del
    cases h : oracle attempt <;> simp [runAttempts, h] <;> split <;> simp
  | cons b rest ih =>
    intro attempt att del
    cases h : oracle attempt with
    | success rem rst => simp [runAttempts, h]
    | httpError s body =>
      simp only [runAttempts, h]
      split
      · simp
      · exact le_trans (by omega) (ih (attempt + 1) (att + 1) (del ++ [b]))
    | timeout =>
      simp only [runAttempts, h]
      exact le_trans (by omega) (ih (attempt + 1) (att + 1) (del ++ [b]))
    | netFailure e =>
      simp only [runAttempts, h]
      split
      · simp
      · exact le_trans (by omega) (ih (attempt + 1) (att + 1) (del ++ [b]))

/- ─────────────────────── claim theorems ────────────────────────────── -/

/-- C1: for every Gateway Client call (all four operations go through
`apiFetch`; `path` is arbitrary) whose attempt fails with HTTP 401 or 429,
exactly one network attempt is made and no retry occurs; for every call
whose attempts fail with a 5xx status, a timeout, or a network-level
error, exactly 3 attempts are made (1 initial + 2 retries) with a delay of
1000 ms before the second attempt and 3000 ms before the third (hence at
least 1 s and 3 s), after which the call fails with the error of the last
attempt. -/
theorem retry_policy (st : Settings) (rl : Option RateLimitState)
    (nowMs : Int) (fmtTime : Int → String) (path : String)
    (hs : st.serverUrl ≠ "") (hk : st.apiKey ≠ "")
    (hrl : preflightBlocked rl nowMs = false) :
    (∀ (s : Int) (body : Option String), s = 401 ∨ s = 429 →
      apiFetch st rl nowMs fmtTime (fun _ => .httpError s body) path
        = ⟨1, [], .err (.api ⟨httpErrMessage s body, s, statusToErrorCode s⟩), rl⟩)
    ∧ (∀ (s : Int) (body : Option String), 500 ≤ s → s ≤ 599 →
      apiFetch st rl nowMs fmtTime (fun _ => .httpError s body) path
        = ⟨3, [1000, 3000],
           .err (.api ⟨httpErrMessage s body, s, statusToErrorCode s⟩), rl⟩)
    ∧ (apiFetch st rl nowMs fmtTime (fun _ => .timeout) path
        = ⟨3, [1000, 3000], .err (.abortDOMException ABORT_MSG), rl⟩)
    ∧ (∀ e : JSErr, apiNoRetry e = false →
      apiFetch st rl nowMs fmtTime (fun _ => .netFailure e) path
        = ⟨3, [1000, 3000], .err (friendlyError e), rl⟩) := by
  refine ⟨?_, ?_, ?_, ?_⟩
  · intro s body h
    rw [apiFetch_run st rl nowMs fmtTime _ path hs hk hrl]
    rcases h with h | h <;> subst h <;>
      simp [runAttempts, RETRY_BACKOFF_MS, noRetryStatus]
  · intro s body h5 h9
    have hnr : noRetryStatus s = false := by
      simp only [noRetryStatus, Bool.or_eq_false_iff, beq_eq_false_iff_ne, ne_eq]
      omega
    rw [apiFetch_run st rl nowMs fmtTime _ path hs hk hrl]
    simp [runAttempts, RETRY_BACKOFF_MS, hnr, friendlyError_api]
  · rw [apiFetch_run st rl nowMs fmtTime _ path hs hk hrl]
    simp [runAttempts, RETRY_BACKOFF_MS, friendlyError_abort]
  · intro e he
    rw [apiFetch_run st rl nowMs fmtTime _ path hs hk hrl]
    simp [runAttempts, RETRY_BACKOFF_MS, he]

theorem retry_policy_witness :
    apiFetch ⟨"https://s", "k", ""⟩ none 0 (fun _ => "") (fun _ => .httpError 500 none) "/p"
      = ⟨3, [1000, 3000],
         .err (.api ⟨httpErrMessage 500 none, 500, statusToErrorCode 500⟩), none⟩ :=
  (retry_policy ⟨"https://s", "k", ""⟩ none 0 (fun _ => "") "/p"
    (by decide) (by decide) rfl).2.1 500 none (by decide) (by decide)

/-- C2 (code-bug evidence): after three timed-out attempts the call fails
with the raw AbortError `DOMException` and carries no classified code
(first two conjuncts) — even though the loop synthesizes a
"Request timed out after 15000ms" message that the code's own
`friendlyError` would classify as `TIMEOUT` (third conjunct), the
synthesized `lastError` is overwritten with the raw exception on the final
iteration. The remaining conjuncts confirm the rest of the claim: a
network-level failure classifies as `NETWORK_ERROR` and a 5xx response as
`SERVER_ERROR`. -/
theorem timeout_exhaustion_unclassified :
    (apiFetch ⟨"https://vault.example", "key", ""⟩ none 0 (fun _ => "")
        (fun _ => .timeout) "/api/vault/status"
      = ⟨3, [1000, 3000], .err (.abortDOMException ABORT_MSG), none⟩)
    ∧ jsErrCode (.abortDOMException ABORT_MSG) = none
    ∧ friendlyError (.plain timedOutMsg) = .api ⟨timedOutMsg, 0, some .TIMEOUT⟩
    ∧ ((apiFetch ⟨"https://vault.example", "key", ""⟩ none 0 (fun _ => "")
        (fun _ => .netFailure (.typeErr "Failed to fetch")) "/api/vault/status").result
      = .err (.api ⟨"Could not reach the server. Check your connection and server URL.",
                    0, some .NETWORK_ERROR⟩))
    ∧ ((apiFetch ⟨"https://vault.example", "key", ""⟩ none 0 (fun _ => "")
        (fun _ => .httpError 503 none) "/api/vault/status").result
      = .err (.api ⟨"API error: 503", 503, some .SERVER_ERROR⟩)) :=
  ⟨by decide, rfl, by decide, by decide, by decide⟩

/-- C4: a call made while the cached rate-limit state has `remaining ≤ 0`
and the current time is strictly before `resetAt` fails with a
`RATE_LIMITED` error whose message embeds the formatted reset time, with
zero network attempts; when `resetAt` is not in the future the pre-flight
check does not short-circuit and at least one network attempt is made. -/
theorem rate_limit_preflight (st : Settings) (r : RateLimitState)
    (nowMs : Int) (fmtTime : Int → String) (oracle : Nat → FetchOutcome)
    (path : String) (hs : st.serverUrl ≠ "") (hk : st.apiKey ≠ "") :
    (r.remaining ≤ 0 → nowMs < r.resetAt * 1000 →
      apiFetch st (some r) nowMs fmtTime oracle path
        = ⟨0, [],
           .err (.api ⟨"Rate limit exhausted. Resets at " ++ fmtTime r.resetAt ++ ".",
                       429, some .RATE_LIMITED⟩),
           some r⟩)
    ∧ (r.resetAt * 1000 ≤ nowMs →
      1 ≤ (apiFetch st (some r) nowMs fmtTime oracle path).attempts) := by
  constructor
  · intro h1 h2
    simp [apiFetch, hs, hk, h1, h2]
  · intro h
    have hb : preflightBlocked (some r) nowMs = false := by
      simp only [preflightBlocked, decide_eq_false_iff_not]
      omega
    rw [apiFetch_run st (some r) nowMs fmtTime oracle path hs hk hb]
    simpa using runAttempts_attempts_ge oracle (some r) RETRY_BACKOFF_MS 0 0 []

theorem rate_limit_preflight_witness :
    apiFetch ⟨"https://s", "k", ""⟩ (some ⟨0, 100⟩) 0 (fun _ => "RT")
        (fun _ => .timeout) "/p"
      = ⟨0, [],
         .err (.api ⟨"Rate limit exhausted. Resets at RT.", 429, some .RATE_LIMITED⟩),
         some ⟨0, 100⟩⟩ := by
  have h := (rate_limit_preflight ⟨"https://s", "k", ""⟩ ⟨0, 100⟩ 0 (fun _ => "RT")
    (fun _ => .timeout) "/p" (by decide) (by decide)).1 (by decide) (by decide)
  exact h.trans (by decide)

/-- C5: a missing server URL or a missing API key fails the call with a
`NOT_CONFIGURED` error and zero network attempts; the statement holds for
every cached rate-limit state (including a blocking one) and every time,
so the configuration check takes effect before the rate-limit pre-flight
check. -/
theorem not_configured_short_circuit (st : Settings) (rl : Option RateLimitState)
    (nowMs : Int) (fmtTime : Int → String) (oracle : Nat → FetchOutcome)
    (path : String) :
    (st.serverUrl = "" →
      apiFetch st rl nowMs fmtTime oracle path
        = ⟨0, [], .err (.api ⟨NOT_CONFIGURED_SERVER_MSG, 0, some .NOT_CONFIGURED⟩), rl⟩)
    ∧ (st.serverUrl ≠ "" → st.apiKey = "" →
      apiFetch st rl nowMs fmtTime oracle path
        = ⟨0, [], .err (.api ⟨NOT_CONFIGURED_KEY_MSG, 0, some .NOT_CONFIGURED⟩), rl⟩) := by
  constructor
  · intro h
    simp [apiFetch, h]
  · intro h hk
    simp [apiFetch, h, hk]

theorem not_configured_short_circuit_witness :
    apiFetch ⟨"", "", ""⟩ (some ⟨0, 999999999⟩) 0 (fun _ => "") (fun _ => .timeout) "/p"
      = ⟨0, [], .err (.api ⟨NOT_CONFIGURED_SERVER_MSG, 0, some .NOT_CONFIGURED⟩),
         some ⟨0, 999999999⟩⟩ :=
  (not_configured_short_circuit ⟨"", "", ""⟩ (some ⟨0, 999999999⟩) 0
    (fun _ => "") (fun _ => .timeout) "/p").1 rfl

/-- C9 (code-bug evidence): `getUserProfile` resolves to absent on a
non-2xx response and on a rejected fetch (network failure or 15s abort),
and to the profile on a 2xx response whose body parses — but, contrary to
the claim and to the function's own doc comment ("Returns null on any
error so the extension still connects"), a 2xx response whose body fails
to parse rejects the call with the raw parse error: `return res.json()`
inside the `try` has no `await`, so the rejection is adopted by the
returned promise and bypasses the `catch` (last conjunct). -/
theorem getProfile_parse_rejection_escapes :
    ∀ (s : Int) (e e2 : JSErr) (p : UserProfile),
      getUserProfile (.httpErr s) = .resolved none
      ∧ getUserProfile (.fetchThrow e) = .resolved none
      ∧ getUserProfile (.okJson p) = .resolved (some p)
      ∧ getUserProfile (.okBadJson e2) = .rejected e2 := by
  intro s e e2 p
  exact ⟨rfl, rfl, rfl, rfl⟩

/-- C10: the rate-limit pre-flight short-circuit throws an `APIError` with
`httpStatus` 429 and code `RATE_LIMITED` even though no response was
received, exactly matching the status and code of a server-returned 429 —
so the two are indistinguishable by status and code alone. -/
theorem preflight_indistinguishable_from_server_429 (st : Settings)
    (r : RateLimitState) (nowMs : Int) (fmtTime : Int → String) (path : String)
    (oracle : Nat → FetchOutcome) (body : Option String)
    (hs : st.serverUrl ≠ "") (hk : st.apiKey ≠ "")
    (hrem : r.remaining ≤ 0) (hreset : nowMs < r.resetAt * 1000) :
    ∃ e1 e2 : APIError,
      (apiFetch st (some r) nowMs fmtTime oracle path).result = .err (.api e1)
      ∧ (apiFetch st none nowMs fmtTime (fun _ => .httpError 429 body) path).result
          = .err (.api e2)
      ∧ e1.status = 429 ∧ e1.code = some .RATE_LIMITED
      ∧ e2.status = 429 ∧ e2.code = some .RATE_LIMITED := by
  refine ⟨⟨"Rate limit exhausted. Resets at " ++ fmtTime r.resetAt ++ ".",
           429, some .RATE_LIMITED⟩,
          ⟨httpErrMessage 429 body, 429, statusToErrorCode 429⟩,
          ?_, ?_, rfl, rfl, rfl, ?_⟩
  · simp [apiFetch, hs, hk, hrem, hreset]
  · rw [apiFetch_run st none nowMs fmtTime _ path hs hk rfl]
    simp [runAttempts, RETRY_BACKOFF_MS, noRetryStatus]
  · rfl

theorem preflight_indistinguishable_witness :
    ∃ e1 e2 : APIError,
      (apiFetch ⟨"https://s", "k", ""⟩ (some ⟨0, 100⟩) 0 (fun _ => "RT")
          (fun _ => FetchOutcome.timeout) "/p").result = .err (.api e1)
      ∧ (apiFetch ⟨"https://s", "k", ""⟩ none 0 (fun _ => "RT")
          (fun _ => FetchOutcome.httpError 429 none) "/p").result = .err (.api e2)
      ∧ e1.status = 429 ∧ e1.code = some .RATE_LIMITED
      ∧ e2.status = 429 ∧ e2.code = some .RATE_LIMITED :=
  preflight_indistinguishable_from_server_429 ⟨"https://s", "k", ""⟩ ⟨0, 100⟩ 0
    (fun _ => "RT") "/p" (fun _ => FetchOutcome.timeout) none
    (by decide) (by decide) (by decide) (by decide)

/-- C3: a `startGoogleOAuth` call made while a flow is pending
(`pendingTabId` set) throws "Sign-in already in progress. ..."
immediately, leaves the pending flow untouched (the state is returned
unchanged) and produces no effect — in particular no second tab is
created. -/
theorem single_flight_guard (st : OAuthState) (t : Nat) (o : TabCreateOutcome)
    (h : st.pendingTabId = some t) :
    startGoogleOAuth st o
      = ⟨st, [],
         some "Sign-in already in progress. Please complete or close the existing sign-in tab."⟩ := by
  simp [startGoogleOAuth, h]

theorem single_flight_guard_witness :
    startGoogleOAuth ⟨some 7, true, true, true, 1⟩ .failed
      = ⟨⟨some 7, true, true, true, 1⟩, [],
         some "Sign-in already in progress. Please complete or close the existing sign-in tab."⟩ :=
  single_flight_guard ⟨some 7, true, true, true, 1⟩ 7 .failed rfl

/-- C6: while a flow is pending, a navigation of the tracked tab to the
exact expected callback host and path resolves the flow (state torn down
by `cleanup`) and closes the tab, with the credential and optional
secondary secret parsed from the URL fragment; a navigation of the
tracked tab anywhere else — or of any other tab — is ignored and the flow
remains pending; and a callback whose fragment lacks a `token` parameter
still resolves, with an empty credential, rather than rejecting. -/
theorem oauth_callback_handling (st : OAuthState) (t other : Nat)
    (u : URLParts) (hash : String)
    (hp : st.pendingTabId = some t) (hres : st.pendingResolve = true) :
    (handleOAuthTabUpdate st t (some (some ⟨CALLBACK_HOST, CALLBACK_PATH, hash⟩))
      = (cleanup st,
         [.removeTab t,
          .resolved ⟨fragmentToken hash,
                     searchParamsGet (hashSlice1 hash) "encryption_secret"⟩]))
    ∧ (u.host ≠ CALLBACK_HOST ∨ u.pathname ≠ CALLBACK_PATH →
        handleOAuthTabUpdate st t (some (some u)) = (st, []))
    ∧ (other ≠ t → handleOAuthTabUpdate st other (some (some u)) = (st, []))
    ∧ (searchParamsGet (hashSlice1 hash) "token" = none →
        handleOAuthTabUpdate st t (some (some ⟨CALLBACK_HOST, CALLBACK_PATH, hash⟩))
          = (cleanup st,
             [.removeTab t,
              .resolved ⟨"", searchParamsGet (hashSlice1 hash) "encryption_secret"⟩])) := by
  have hmain : ∀ hsh : String,
      handleOAuthTabUpdate st t (some (some ⟨CALLBACK_HOST, CALLBACK_PATH, hsh⟩))
        = (cleanup st,
           [.removeTab t,
            .resolved ⟨fragmentToken hsh,
                       searchParamsGet (hashSlice1 hsh) "encryption_secret"⟩]) := by
    intro hsh
    cases htok : searchParamsGet (hashSlice1 hsh) "token" with
    | none => simp [handleOAuthTabUpdate, hp, hres, fragmentToken, htok]
    | some tok =>
      by_cases he : tok = "" <;>
        simp [handleOAuthTabUpdate, hp, hres, fragmentToken, htok, he]
  refine ⟨hmain hash, ?_, ?_, ?_⟩
  · intro h
    simp only [handleOAuthTabUpdate, hp]
    rw [if_neg (by simp), if_pos h]
  · intro h
    simp [handleOAuthTabUpdate, hp, h]
  · intro htok
    have h := hmain hash
    rw [h]
    simp [fragmentToken, htok]

theorem oauth_callback_handling_witness :
    handleOAuthTabUpdate ⟨some 7, true, true, true, 1⟩ 7
        (some (some ⟨CALLBACK_HOST, CALLBACK_PATH, "#token=abc&encryption_secret=xyz"⟩))
      = (cleanup ⟨some 7, true, true, true, 1⟩,
         [.removeTab 7, .resolved ⟨"abc", some "xyz"⟩]) := by
  have h := (oauth_callback_handling ⟨some 7, true, true, true, 1⟩ 7 9
    ⟨"example.com", "/", ""⟩ "#token=abc&encryption_secret=xyz" rfl rfl).1
  exact h.trans (by decide)

/-- C7 (counterexample to the claim as stated): a full resolution of an
OAuth flow does not deregister the tab-removal listener. Starting from the
idle state, `startGoogleOAuth` registers one `onRemoved` listener; after
the callback navigation resolves the flow (a terminal transition, second
conjunct), the listener is still registered, and it remains registered
even after the removal event for the tab the coordinator itself closed is
delivered (since `pendingTabId` is by then `null`, the listener returns
without deregistering). -/
theorem oauth_listener_leak_counterexample :
    ((startGoogleOAuth ⟨none, false, false, false, 0⟩ (.created 7)).state.removalListeners = 1)
    ∧ ((handleOAuthTabUpdate (startGoogleOAuth ⟨none, false, false, false, 0⟩ (.created 7)).state
          7 (some (some ⟨CALLBACK_HOST, CALLBACK_PATH, "#token=abc"⟩))).2
        = [.removeTab 7, .resolved ⟨"abc", none⟩])
    ∧ ((handleOAuthTabUpdate (startGoogleOAuth ⟨none, false, false, false, 0⟩ (.created 7)).state
          7 (some (some ⟨CALLBACK_HOST, CALLBACK_PATH, "#token=abc"⟩))).1.removalListeners = 1)
    ∧ ((onRemovedHandler
          (handleOAuthTabUpdate (startGoogleOAuth ⟨none, false, false, false, 0⟩ (.created 7)).state
            7 (some (some ⟨CALLBACK_HOST, CALLBACK_PATH, "#token=abc"⟩))).1
          7).1.removalListeners = 1) :=
  ⟨rfl, by decide, by decide, by decide⟩

/-- C7 (amended): every terminal transition of the OAuth flow clears the
deadline timer and nulls the pending references, so a new
`startGoogleOAuth` is accepted immediately afterwards; the tab-closure
path rejects with "Sign-in cancelled." and the deadline path with
"Sign-in timed out. Please try again."; but only the tab-closure path
deregisters the tab-removal listener — after a callback resolution or a
deadline rejection the listener remains registered (inert for the
torn-down flow). -/
theorem oauth_teardown_amended (st st0 : OAuthState) (t : Nat) (hash : String)
    (o : TabCreateOutcome)
    (hp : st.pendingTabId = some t) (hrej : st.pendingReject = true)
    (h0 : st0.pendingTabId = none) :
    (((handleOAuthTabUpdate st t (some (some ⟨CALLBACK_HOST, CALLBACK_PATH, hash⟩))).1
        = cleanup st)
      ∧ (cleanup st).pendingTabId = none ∧ (cleanup st).pendingResolve = false
      ∧ (cleanup st).pendingReject = false ∧ (cleanup st).pendingTimeout = false
      ∧ (cleanup st).removalListeners = st.removalListeners
      ∧ (startGoogleOAuth (cleanup st) o).thrown = none)
    ∧ ((fireDeadline st).2
        = [.removeTab t, .rejected "Sign-in timed out. Please try again."]
      ∧ (fireDeadline st).1 = cleanup st
      ∧ (startGoogleOAuth (fireDeadline st).1 o).thrown = none)
    ∧ ((onRemovedHandler st t).2 = [.rejected "Sign-in cancelled."]
      ∧ (onRemovedHandler st t).1.pendingTabId = none
      ∧ (onRemovedHandler st t).1.pendingResolve = false
      ∧ (onRemovedHandler st t).1.pendingReject = false
      ∧ (onRemovedHandler st t).1.pendingTimeout = false
      ∧ (onRemovedHandler st t).1.removalListeners = st.removalListeners - 1
      ∧ (startGoogleOAuth (onRemovedHandler st t).1 o).thrown = none)
    ∧ ((startGoogleOAuth st0 .failed).effects
        = [.createTab OAUTH_START_URL, .rejected "Failed to open sign-in tab."]
      ∧ (startGoogleOAuth st0 .failed).state.pendingTabId = none
      ∧ (startGoogleOAuth st0 .failed).state.pendingResolve = false
      ∧ (startGoogleOAuth st0 .failed).state.pendingReject = false
      ∧ (startGoogleOAuth st0 .failed).state.pendingTimeout = false
      ∧ (startGoogleOAuth (startGoogleOAuth st0 .failed).state o).thrown = none) := by
  have haccept : ∀ st1 : OAuthState, st1.pendingTabId = none →
      (startGoogleOAuth st1 o).thrown = none := by
    intro st1 h1
    cases o <;> simp [startGoogleOAuth, h1]
  refine ⟨⟨?_, rfl, rfl, rfl, rfl, rfl, haccept _ rfl⟩, ⟨?_, ?_, ?_⟩, ⟨?_, ?_, ?_, ?_, ?_, ?_, ?_⟩, ⟨?_, ?_, ?_, ?_, ?_, ?_⟩⟩
  · cases htok : searchParamsGet (hashSlice1 hash) "token" with
    | none => simp [handleOAuthTabUpdate, hp, htok]
    | some tok =>
      by_cases he : tok = "" <;>
        cases hres : st.pendingResolve <;>
          simp [handleOAuthTabUpdate, hp, htok, he, hres]
  · simp [fireDeadline, rejectRun, hp, hrej]
  · simp [fireDeadline, rejectRun]
  · rw [show (fireDeadline st).1 = cleanup st by simp [fireDeadline, rejectRun]]
    exact haccept _ rfl
  · simp [onRemovedHandler, hp, hrej, cleanup]
  · simp [onRemovedHandler, hp, hrej, cleanup]
  · simp [onRemovedHandler, hp, hrej, cleanup]
  · simp [onRemovedHandler, hp, hrej, cleanup]
  · simp [onRemovedHandler, hp, hrej, cleanup]
  · simp [onRemovedHandler, hp, hrej, cleanup]
  · have h1 : (onRemovedHandler st t).1.pendingTabId = none := by
      simp [onRemovedHandler, hp, hrej, cleanup]
    exact haccept _ h1
  · simp [startGoogleOAuth, h0, rejectRun, cleanup]
  · simp [startGoogleOAuth, h0, rejectRun, cleanup]
  · simp [startGoogleOAuth, h0, rejectRun, cleanup]
  · simp [startGoogleOAuth, h0, rejectRun, cleanup]
  · simp [startGoogleOAuth, h0, rejectRun, cleanup]
  · have h1 : (startGoogleOAuth st0 .failed).state.pendingTabId = none := by
      simp [startGoogleOAuth, h0, rejectRun, cleanup]
    exact haccept _ h1

theorem oauth_teardown_amended_witness :
    (fireDeadline ⟨some 7, true, true, true, 2⟩).2
      = [.removeTab 7, .rejected "Sign-in timed out. Please try again."] :=
  (oauth_teardown_amended ⟨some 7, true, true, true, 2⟩ ⟨none, false, false, false, 0⟩
    7 "#token=x" (.created 9) rfl rfl rfl).2.1.1

/-- C8: for every parsed server URL with an http(s) scheme the derived
permission pattern is `protocol + "//" + host + "/*"` (path-independent;
`host` carries the port exactly when explicit, so the pattern does too);
an unparsable URL or a non-http(s) scheme fails with a descriptive error
before any permission API call (empty trace); and a declined grant fails
with a "Permission denied for ..." error naming the exact origin
pattern. -/
theorem origin_permission_negotiation (p : ServerURLParts) (env : PermEnv)
    (hscheme : p.protocol = "https:" ∨ p.protocol = "http:") :
    (originPatternFromServerUrl (some p)
      = .ok (p.protocol ++ "//" ++ p.host ++ "/*"))
    ∧ (ensureServerPermission env none = (.error INVALID_URL_MSG, ⟨[], []⟩))
    ∧ (∀ q : ServerURLParts, q.protocol ≠ "https:" → q.protocol ≠ "http:" →
        ensureServerPermission env (some q) = (.error BAD_SCHEME_MSG, ⟨[], []⟩))
    ∧ (env.containsGranted (p.protocol ++ "//" ++ p.host ++ "/*") = false →
       env.requestGranted (p.protocol ++ "//" ++ p.host ++ "/*") = false →
       ensureServerPermission env (some p)
         = (.error ("Permission denied for " ++ (p.protocol ++ "//" ++ p.host ++ "/*")
                    ++ ". Allow host access to connect this server."),
            ⟨[p.protocol ++ "//" ++ p.host ++ "/*"],
             [p.protocol ++ "//" ++ p.host ++ "/*"]⟩)) := by
  have hpat : originPatternFromServerUrl (some p)
      = .ok (p.protocol ++ "//" ++ p.host ++ "/*") := by
    rcases hscheme with h | h <;> simp [originPatternFromServerUrl, h]
  refine ⟨hpat, rfl, ?_, ?_⟩
  · intro q h1 h2
    simp [ensureServerPermission, originPatternFromServerUrl, h1, h2]
  · intro hc hr
    simp [ensureServerPermission, hpat, hc, hr]

theorem origin_permission_negotiation_witness :
    originPatternFromServerUrl (some ⟨"https:", "api.example.com"⟩)
      = .ok "https://api.example.com/*" := by
  have h := (origin_permission_negotiation ⟨"https:", "api.example.com"⟩
    ⟨fun _ => false, fun _ => false⟩ (Or.inl rfl)).1
  exact h.trans (by rfl)
